import Mathlib

/-!
Verification of the research_interface command/response schema
(`service_types.h`-style header, `src/unnamed/part_000`) and the robot error
vocabulary (`src/include/research_interface/robot/errors.h`) of the
libfranka-common repository, as a shallow embedding in Lean 4.

Each C++ `enum class` becomes a Lean inductive with an explicit value map;
the request/response layout of each command becomes a schema of field byte-widths;
the parts of the design that live outside this repository (the wire codec,
the version negotiator and the session state machine) are modelled from the
specification and are marked as such in their doc comments.
-/

namespace ResearchInterface

/-- Source: `using Version = uint16_t; constexpr Version kVersion = 1;`. -/
def kVersion : Nat := 1

/-- Source: `constexpr uint16_t kCommandPort = 1337;`. -/
def kCommandPort : Nat := 1337

/-- Source: `enum class Function : uint32_t` — the 17 command identifiers, implicit
consecutive values starting at 0. -/
inductive Function : Type where
  | kConnect
  | kStartMotionGenerator
  | kStopMotionGenerator
  | kStartController
  | kStopController
  | kGetCartesianLimit
  | kSetControllerMode
  | kSetCollisionBehavior
  | kSetJointImpedance
  | kSetCartesianImpedance
  | kSetGuidingMode
  | kSetEEToK
  | kSetFToEE
  | kSetLoad
  | kSetTimeScalingFactor
  | kAutomaticErrorRecovery
  | kResetExternalTorqueAndForceMax
deriving DecidableEq, Repr

/-- The encoded `uint32_t` value of each `Function` enumerator (C++ implicit
enumeration: 0, 1, 2, ...). -/
def Function.val : Function → Nat
  | .kConnect => 0
  | .kStartMotionGenerator => 1
  | .kStopMotionGenerator => 2
  | .kStartController => 3
  | .kStopController => 4
  | .kGetCartesianLimit => 5
  | .kSetControllerMode => 6
  | .kSetCollisionBehavior => 7
  | .kSetJointImpedance => 8
  | .kSetCartesianImpedance => 9
  | .kSetGuidingMode => 10
  | .kSetEEToK => 11
  | .kSetFToEE => 12
  | .kSetLoad => 13
  | .kSetTimeScalingFactor => 14
  | .kAutomaticErrorRecovery => 15
  | .kResetExternalTorqueAndForceMax => 16

/-- All enumerators of `Function` in declaration order. -/
def allFunctions : List Function :=
  [.kConnect, .kStartMotionGenerator, .kStopMotionGenerator, .kStartController,
   .kStopController, .kGetCartesianLimit, .kSetControllerMode,
   .kSetCollisionBehavior, .kSetJointImpedance, .kSetCartesianImpedance,
   .kSetGuidingMode, .kSetEEToK, .kSetFToEE, .kSetLoad,
   .kSetTimeScalingFactor, .kAutomaticErrorRecovery,
   .kResetExternalTorqueAndForceMax]

/-- The `Status` enumeration of each command, as (enumerator name, encoded
`uint32_t` value) pairs in declaration order.  `CommandBase` declares the
default `enum class Status : uint32_t { kSuccess }`; `Connect`,
`StartMotionGenerator` and `GetCartesianLimit` shadow it with their own
enumerations; every other command inherits the default. -/
def statusVariants : Function → List (String × Nat)
  | .kConnect =>
      [("kSuccess", 0), ("kIncompatibleLibraryVersion", 1)]
  | .kStartMotionGenerator =>
      [("kSuccess", 0), ("kInvalidType", 1), ("kFinished", 2),
       ("kAborted", 3), ("kRejected", 4)]
  | .kGetCartesianLimit =>
      [("kSuccess", 0), ("kReceived", 1)]
  | _ => [("kSuccess", 0)]

/-- Commands that do not shadow `CommandBase::Status` with their own
enumeration, in declaration order. -/
def noOwnStatusCommands : List Function :=
  [.kStopMotionGenerator, .kStartController, .kStopController,
   .kSetControllerMode, .kSetCollisionBehavior, .kSetJointImpedance,
   .kSetCartesianImpedance, .kSetGuidingMode, .kSetEEToK, .kSetFToEE,
   .kSetLoad, .kSetTimeScalingFactor, .kAutomaticErrorRecovery,
   .kResetExternalTorqueAndForceMax]

/-- Every status value fits in the declared `uint32_t` underlying type. -/
def statusFitsUInt32 (f : Function) : Bool :=
  (statusVariants f).all fun p => decide (p.2 < 2 ^ 32)

/-- The `Status` of the command contains a `kSuccess` variant encoded as 0. -/
def statusHasZeroSuccess (f : Function) : Bool :=
  (statusVariants f).any fun p => p.1 == "kSuccess" && p.2 == 0

/-- No variant other than `kSuccess` is encoded as 0. -/
def statusOnlySuccessIsZero (f : Function) : Bool :=
  (statusVariants f).all fun p => p.2 != 0 || p.1 == "kSuccess"

/-- The `Function` tag carried by the `Request` of each command: `RequestBase<T>`
sets `function = T::kFunction`, and every command instantiates
`RequestBase` with itself — except `SetTimeScalingFactor`, whose
`struct Request : public RequestBase<SetLoad>` instantiates it with
`SetLoad`, so its request carries `Function::kSetLoad`. -/
def requestFunction : Function → Function
  | .kConnect => .kConnect
  | .kStartMotionGenerator => .kStartMotionGenerator
  | .kStopMotionGenerator => .kStopMotionGenerator
  | .kStartController => .kStartController
  | .kStopController => .kStopController
  | .kGetCartesianLimit => .kGetCartesianLimit
  | .kSetControllerMode => .kSetControllerMode
  | .kSetCollisionBehavior => .kSetCollisionBehavior
  | .kSetJointImpedance => .kSetJointImpedance
  | .kSetCartesianImpedance => .kSetCartesianImpedance
  | .kSetGuidingMode => .kSetGuidingMode
  | .kSetEEToK => .kSetEEToK
  | .kSetFToEE => .kSetFToEE
  | .kSetLoad => .kSetLoad
  | .kSetTimeScalingFactor => .kSetLoad
  | .kAutomaticErrorRecovery => .kAutomaticErrorRecovery
  | .kResetExternalTorqueAndForceMax => .kResetExternalTorqueAndForceMax

/-- The `Function` tag carried by the `Response` of each command:
`ResponseBase<T>` sets `function = T::kFunction`, and the
`Response` of every command (the default alias `ResponseBase<T>` or an explicit subclass)
instantiates `ResponseBase` with the command itself. -/
def responseFunction : Function → Function := fun f => f

/-- The anonymous `enum : size_t` of `struct Errors` from
`src/include/research_interface/robot/errors.h`: the closed vocabulary of
named safety-violation kinds, implicit consecutive values from 0. -/
inductive Errors : Type where
  | kJointPositionLimitsViolation
  | kCartesianPositionLimitsViolation
  | kSelfcollisionAvoidanceViolation
  | kJointVelocityViolation
  | kCartesianVelocityViolation
  | kForceControlSafetyViolation
  | kJointReflex
  | kCartesianReflex
  | kMaxGoalPoseDeviationViolation
  | kMaxPathPoseDeviationViolation
  | kCartesianVelocityProfileSafetyViolation
  | kJointPositionMotionGeneratorStartPoseInvalid
  | kJointMotionGeneratorPositionLimitsViolation
  | kJointMotionGeneratorVelocityLimitsViolation
  | kJointMotionGeneratorVelocityDiscontinuity
  | kJointMotionGeneratorAccelerationDiscontinuity
  | kCartesianPositionMotionGeneratorStartPoseInvalid
  | kCartesianMotionGeneratorElbowLimitViolation
  | kCartesianMotionGeneratorVelocityLimitsViolation
  | kCartesianMotionGeneratorVelocityDiscontinuity
  | kCartesianMotionGeneratorAccelerationDiscontinuity
  | kCartesianMotionGeneratorElbowSignInconsistent
  | kCartesianMotionGeneratorStartElbowInvalid
  | kForceControllerDesiredForceToleranceViolation
  | kStartElbowSignInconsistent
  | kCommunicationConstraintsViolation
  | kPowerLimitViolation
  | kCartesianMotionGeneratorJointPositionLimitsViolation
  | kCartesianMotionGeneratorJointVelocityLimitsViolation
  | kCartesianMotionGeneratorJointVelocityDiscontinuity
  | kCartesianMotionGeneratorJointAccelerationDiscontinuity
  | kCartesianPositionMotionGeneratorInvalidFrame
  | kControllerTorqueDiscontinuity
deriving DecidableEq, Repr

/-- All enumerators of `Errors` in declaration order. -/
def allErrors : List Errors :=
  [.kJointPositionLimitsViolation,
   .kCartesianPositionLimitsViolation,
   .kSelfcollisionAvoidanceViolation,
   .kJointVelocityViolation,
   .kCartesianVelocityViolation,
   .kForceControlSafetyViolation,
   .kJointReflex,
   .kCartesianReflex,
   .kMaxGoalPoseDeviationViolation,
   .kMaxPathPoseDeviationViolation,
   .kCartesianVelocityProfileSafetyViolation,
   .kJointPositionMotionGeneratorStartPoseInvalid,
   .kJointMotionGeneratorPositionLimitsViolation,
   .kJointMotionGeneratorVelocityLimitsViolation,
   .kJointMotionGeneratorVelocityDiscontinuity,
   .kJointMotionGeneratorAccelerationDiscontinuity,
   .kCartesianPositionMotionGeneratorStartPoseInvalid,
   .kCartesianMotionGeneratorElbowLimitViolation,
   .kCartesianMotionGeneratorVelocityLimitsViolation,
   .kCartesianMotionGeneratorVelocityDiscontinuity,
   .kCartesianMotionGeneratorAccelerationDiscontinuity,
   .kCartesianMotionGeneratorElbowSignInconsistent,
   .kCartesianMotionGeneratorStartElbowInvalid,
   .kForceControllerDesiredForceToleranceViolation,
   .kStartElbowSignInconsistent,
   .kCommunicationConstraintsViolation,
   .kPowerLimitViolation,
   .kCartesianMotionGeneratorJointPositionLimitsViolation,
   .kCartesianMotionGeneratorJointVelocityLimitsViolation,
   .kCartesianMotionGeneratorJointVelocityDiscontinuity,
   .kCartesianMotionGeneratorJointAccelerationDiscontinuity,
   .kCartesianPositionMotionGeneratorInvalidFrame,
   .kControllerTorqueDiscontinuity]

/-- Modelled from the spec: the Error Classifier
(`classify(rawSafetyFlags) -> SafetyViolationSet`) is not part of this
repository; per spec section 4.5 it maps the raw fault flags produced by the
real-time loop into the closed named vocabulary, deduplicated into a set
(flags may co-occur). -/
def classify (rawSafetyFlags : List Errors) : List Errors :=
  rawSafetyFlags.dedup

/-- Source: `Connect` declares `enum class Status : uint32_t
{ kSuccess, kIncompatibleLibraryVersion }`. -/
inductive Connect.Status : Type where
  | kSuccess
  | kIncompatibleLibraryVersion
deriving DecidableEq, Repr

/-- The struct `Connect::Request` — fields in declaration order: the inherited
`function` tag, then `version` and `udp_port` (both `uint16_t`). -/
structure Connect.Request : Type where
  function : Function
  version : Nat
  udp_port : Nat
deriving DecidableEq, Repr

/-- The C++ constructor `Connect::Request(uint16_t udp_port)`: the
`RequestBase<Connect>` base sets `function = Connect::kFunction`, and the
member initializer list sets `version(kVersion), udp_port(udp_port)`. -/
def Connect.makeRequest (udp_port : Nat) : Connect.Request :=
  { function := Function.kConnect, version := kVersion, udp_port := udp_port }

/-- The struct `Connect::Response` — the inherited `function` and `status`, then
`version` (`uint16_t`). -/
structure Connect.Response : Type where
  function : Function
  status : Connect.Status
  version : Nat
deriving DecidableEq, Repr

/-- The C++ constructor `Connect::Response(Status status)`:
`ResponseBase<Connect>` sets `function = Connect::kFunction` and `status`,
and the initializer list sets `version(kVersion)`. -/
def Connect.makeResponse (status : Connect.Status) : Connect.Response :=
  { function := Function.kConnect, status := status, version := kVersion }

/-- Source: `StartMotionGenerator::MotionGeneratorMode : uint32_t`. -/
inductive MotionGeneratorMode : Type where
  | kJointPosition
  | kJointVelocity
  | kCartesianPosition
  | kCartesianVelocity
deriving DecidableEq, Repr

/-- Source: `SetControllerMode::ControllerMode : uint32_t`. -/
inductive ControllerMode : Type where
  | kMotorPD
  | kJointPosition
  | kJointImpedance
  | kCartesianImpedance
deriving DecidableEq, Repr

/-- The struct `StartMotionGenerator::Request` — the inherited `function` tag and the
requested `mode`. -/
structure StartMotionGenerator.Request : Type where
  function : Function
  mode : MotionGeneratorMode
deriving DecidableEq, Repr

/-- The C++ constructor `StartMotionGenerator::Request(MotionGeneratorMode
mode)`: `RequestBase<StartMotionGenerator>` sets
`function = StartMotionGenerator::kFunction`. -/
def StartMotionGenerator.makeRequest
    (mode : MotionGeneratorMode) : StartMotionGenerator.Request :=
  { function := Function.kStartMotionGenerator, mode := mode }

/-- The struct `SetTimeScalingFactor::Request` — the inherited `function` tag and the
`time_scaling_factor` double, modelled as its 64-bit pattern. -/
structure SetTimeScalingFactor.Request : Type where
  function : Function
  time_scaling_factor : Nat
deriving DecidableEq, Repr

/-- The C++ constructor `SetTimeScalingFactor::Request(double
time_scaling_factor)`.  The struct is declared
`struct Request : public RequestBase<SetLoad>`, so the base-class
constructor sets `function = SetLoad::kFunction = Function::kSetLoad`. -/
def SetTimeScalingFactor.makeRequest
    (time_scaling_factor : Nat) : SetTimeScalingFactor.Request :=
  { function := Function.kSetLoad,
    time_scaling_factor := time_scaling_factor }

/-- Byte width of a `double` on the wire. -/
def doubleBytes : Nat := 8

/-- Request payload size in bytes, excluding the 4-byte `function` header:
the byte sizes of the declared request fields, read off each `Request`
struct (`uint16_t` = 2, enum mode = 4, `double` = 8, `bool` = 1; commands
with no `Request` subclass have an empty payload). -/
def requestPayloadBytes : Function → Nat
  | .kConnect => 2 + 2
  | .kStartMotionGenerator => 4
  | .kStopMotionGenerator => 0
  | .kStartController => 0
  | .kStopController => 0
  | .kGetCartesianLimit => 0
  | .kSetControllerMode => 4
  | .kSetCollisionBehavior =>
      14 * doubleBytes + 14 * doubleBytes + 12 * doubleBytes + 12 * doubleBytes
  | .kSetJointImpedance => 7 * doubleBytes
  | .kSetCartesianImpedance => 6 * doubleBytes
  | .kSetGuidingMode => 6 * 1 + 1
  | .kSetEEToK => 16 * doubleBytes
  | .kSetFToEE => 16 * doubleBytes
  | .kSetLoad => doubleBytes + 3 * doubleBytes + 9 * doubleBytes
  | .kSetTimeScalingFactor => doubleBytes
  | .kAutomaticErrorRecovery => 0
  | .kResetExternalTorqueAndForceMax => 0

/-- The struct `GetCartesianLimit::Response` carries result fields past the function and status
headers: `object_p_min` (3 doubles), `object_p_max` (3 doubles),
`object_frame` (16 doubles), `object_activation` (1 bool) — unpadded byte
count. -/
def GetCartesianLimit.resultPayloadBytesRaw : Nat :=
  3 * doubleBytes + 3 * doubleBytes + 16 * doubleBytes + 1

/-- The same result payload rounded up to the 8-byte alignment of its
`double` members. -/
def GetCartesianLimit.resultPayloadBytesPadded : Nat :=
  8 * ((GetCartesianLimit.resultPayloadBytesRaw + 7) / 8)

/-- Modelled from the spec: the Wire Codec is not part of this repository.
Spec section 4.1 fixes little-endian fixed-width fields; `bytesOfNat w v` is
the `w`-byte little-endian encoding of the field value `v` (doubles are
carried as their 64-bit patterns). -/
def bytesOfNat : Nat → Nat → List Nat
  | 0, _ => []
  | w + 1, v => v % 256 :: bytesOfNat w (v / 256)

/-- Little-endian decoding of a byte list back to a field value. -/
def natOfBytes : List Nat → Nat
  | [] => 0
  | b :: bs => b + 256 * natOfBytes bs

/-- Modelled from the spec: `encode` of a whole message — the fields of a
request or response, laid out in declaration order with the widths given by
its schema, each little-endian. -/
def encodeMsg : List Nat → List Nat → List Nat
  | w :: ws, v :: vs => bytesOfNat w v ++ encodeMsg ws vs
  | _, _ => []

/-- Modelled from the spec: `decode(bytes, FunctionId)` — splits the byte
string according to the schema the FunctionId selects; fails (`none`) when
the byte length disagrees with the fixed length of the schema. -/
def decodeMsg : List Nat → List Nat → Option (List Nat)
  | [], [] => some []
  | [], _ :: _ => none
  | w :: ws, bytes =>
      if w ≤ bytes.length then
        match decodeMsg ws (bytes.drop w) with
        | some vs => some (natOfBytes (bytes.take w) :: vs)
        | none => none
      else none

/-- A message is well formed for a schema when it has one value per field
and each value fits the width of its field. -/
def wellFormedMsg : List Nat → List Nat → Bool
  | [], [] => true
  | w :: ws, v :: vs => decide (v < 256 ^ w) && wellFormedMsg ws vs
  | _, _ => false

/-- Field byte-widths of the request of each command on the wire, in declaration
order, starting with the 4-byte `function` header (doubles are 8-byte
fields, `uint16_t` 2, mode enums 4, `bool` 1). -/
def requestSchema : Function → List Nat
  | .kConnect => [4, 2, 2]
  | .kStartMotionGenerator => [4, 4]
  | .kStopMotionGenerator => [4]
  | .kStartController => [4]
  | .kStopController => [4]
  | .kGetCartesianLimit => [4]
  | .kSetControllerMode => [4, 4]
  | .kSetCollisionBehavior =>
      4 :: (List.replicate 14 8 ++ List.replicate 14 8 ++
            List.replicate 12 8 ++ List.replicate 12 8)
  | .kSetJointImpedance => 4 :: List.replicate 7 8
  | .kSetCartesianImpedance => 4 :: List.replicate 6 8
  | .kSetGuidingMode => 4 :: (List.replicate 6 1 ++ [1])
  | .kSetEEToK => 4 :: List.replicate 16 8
  | .kSetFToEE => 4 :: List.replicate 16 8
  | .kSetLoad => 4 :: (8 :: (List.replicate 3 8 ++ List.replicate 9 8))
  | .kSetTimeScalingFactor => [4, 8]
  | .kAutomaticErrorRecovery => [4]
  | .kResetExternalTorqueAndForceMax => [4]

/-- Field byte-widths of the response of each command on the wire: the 4-byte
`function` and 4-byte `status` headers, then any result fields (`Connect`
adds a `uint16_t` version; `GetCartesianLimit` adds 3 + 3 + 16 doubles and a
`bool`). -/
def responseSchema : Function → List Nat
  | .kConnect => [4, 4, 2]
  | .kGetCartesianLimit =>
      4 :: 4 :: (List.replicate 3 8 ++ List.replicate 3 8 ++
                 List.replicate 16 8 ++ [1])
  | _ => [4, 4]

/-- Modelled from the spec: the session state machine (spec section 4.4) is
not part of this repository.  Each of the controller axis and the
motion-generator axis is a tri-state Idle / Starting / Active, the latter
two carrying the requested mode. -/
inductive Axis : Type where
  | idle
  | starting (mode : Nat)
  | active (mode : Nat)
deriving DecidableEq, Repr

/-- Outcome of a start request on an axis. -/
inductive StartOutcome : Type where
  | kSuccess
  | kRejected
deriving DecidableEq, Repr

/-- Modelled from the spec: a start command on an axis (`StartController` or
`StartMotionGenerator`) is legal only when the axis is Idle; on success the
axis becomes Active with the given mode; when the axis is already Starting
or Active the request is rejected and the axis is unchanged. -/
def startAxis (a : Axis) (mode : Nat) : Axis × StartOutcome :=
  match a with
  | .idle => (.active mode, .kSuccess)
  | .starting m => (.starting m, .kRejected)
  | .active m => (.active m, .kRejected)

/-- Modelled from the spec: per-session state — connection phase is implied
by the existence of the record, plus the two independent axes and the latched
fault set with the session-wide Faulted flag. -/
structure SessionState : Type where
  controller : Axis
  motionGenerator : Axis
  faulted : Bool
  latchedFaults : List Errors
deriving DecidableEq, Repr

/-- The session created at a successful connect: both axes Idle, not
Faulted, no latched faults. -/
def initialSession : SessionState :=
  { controller := .idle, motionGenerator := .idle,
    faulted := false, latchedFaults := [] }

/-- Modelled from the spec: `StartController(mode)` applied to a session
acts on the controller axis only. -/
def startController (s : SessionState) (mode : Nat) :
    SessionState × StartOutcome :=
  let (a, o) := startAxis s.controller mode
  ({ s with controller := a }, o)

/-- Modelled from the spec: `StartMotionGenerator(mode)` applied to a
session acts on the motion-generator axis only. -/
def startMotionGenerator (s : SessionState) (mode : Nat) :
    SessionState × StartOutcome :=
  let (a, o) := startAxis s.motionGenerator mode
  ({ s with motionGenerator := a }, o)

/-- Modelled from the spec: the Version Negotiator
(`negotiate(clientVersion, serverVersion)`, spec section 4.3) is not part of
this repository; equality is the only accepted relation, and rejection is
reported as `Connect::Status::kIncompatibleLibraryVersion`. -/
def negotiate (clientVersion serverVersion : Nat) : Connect.Status :=
  if clientVersion = serverVersion then .kSuccess
  else .kIncompatibleLibraryVersion

/-- Modelled from the spec: a Connect exchange creates the SessionState
exactly when negotiation accepts; on rejection no SessionState exists. -/
def connect (clientVersion serverVersion : Nat) : Option SessionState :=
  if clientVersion = serverVersion then some initialSession else none

/-- A little-endian field encoding always has exactly its declared width. -/
theorem bytesOfNat_length (w v : Nat) : (bytesOfNat w v).length = w := by
  induction w generalizing v with
  | zero => rfl
  | succ w ih => simp [bytesOfNat, ih]

/-- Decoding a little-endian field encoding recovers the value, provided the
value fits the field width. -/
theorem natOfBytes_bytesOfNat (w v : Nat) (h : v < 256 ^ w) :
    natOfBytes (bytesOfNat w v) = v := by
  induction w generalizing v with
  | zero =>
      simp only [Nat.pow_zero, Nat.lt_one_iff] at h
      simp [bytesOfNat, natOfBytes, h]
  | succ w ih =>
      have hdiv : v / 256 < 256 ^ w := by
        rw [Nat.div_lt_iff_lt_mul (by norm_num)]
        calc v < 256 ^ (w + 1) := h
          _ = 256 ^ w * 256 := by rw [Nat.pow_succ]
      simp only [bytesOfNat, natOfBytes, ih _ hdiv]
      exact Nat.mod_add_div v 256

/-- Generic round trip of the modelled codec: decoding the encoding of a
well-formed message recovers every field. -/
theorem decodeMsg_encodeMsg (ws vs : List Nat)
    (h : wellFormedMsg ws vs = true) :
    decodeMsg ws (encodeMsg ws vs) = some vs := by
  induction ws generalizing vs with
  | nil =>
      cases vs with
      | nil => rfl
      | cons v vs => simp [wellFormedMsg] at h
  | cons w ws ih =>
      cases vs with
      | nil => simp [wellFormedMsg] at h
      | cons v vs =>
          simp only [wellFormedMsg, Bool.and_eq_true, decide_eq_true_eq] at h
          obtain ⟨h1, h2⟩ := h
          have hlen : (bytesOfNat w v).length = w := bytesOfNat_length w v
          have ht : (bytesOfNat w v ++ encodeMsg ws vs).take w = bytesOfNat w v :=
            List.take_left' hlen
          have hd : (bytesOfNat w v ++ encodeMsg ws vs).drop w = encodeMsg ws vs :=
            List.drop_left' hlen
          have hle : w ≤ (bytesOfNat w v ++ encodeMsg ws vs).length := by
            rw [List.length_append, hlen]
            omega
          simp [encodeMsg, decodeMsg, hle, ht, hd, ih vs h2,
                natOfBytes_bytesOfNat w v h1, hlen]

/-- A start request on a busy (Starting or Active) axis is rejected and
leaves the axis exactly as it was. -/
theorem startAxis_busy (a : Axis) (m : Nat) (h : a ≠ Axis.idle) :
    startAxis a m = (a, StartOutcome.kRejected) := by
  cases a with
  | idle => exact absurd rfl h
  | starting m => rfl
  | active m => rfl

/-- C1: the claim states that every Request carries the FunctionId of its
own operation — in particular that a SetTimeScalingFactor request carries
Function::kSetTimeScalingFactor — and that a Response carries the same
FunctionId as its Request.  The code violates this at
SetTimeScalingFactor: its `Request` is declared
`struct Request : public RequestBase<SetLoad>`, so the constructed request
carries `Function::kSetLoad`, while the response carries
`Function::kSetTimeScalingFactor`. -/
theorem C1_setTimeScalingFactor_request_function_bug :
    (SetTimeScalingFactor.makeRequest 0).function = Function.kSetLoad ∧
    (SetTimeScalingFactor.makeRequest 0).function ≠
      Function.kSetTimeScalingFactor ∧
    responseFunction Function.kSetTimeScalingFactor ≠
      (SetTimeScalingFactor.makeRequest 0).function := by
  refine ⟨rfl, by decide, by decide⟩

/-- C2: every one of the 17 commands has a Status enumeration whose values
fit the declared uint32_t underlying type, that contains a kSuccess variant
encoded as 0, and in which no other variant is encoded as 0. -/
theorem C2_status_uint32_zero_success :
    ∀ f : Function, statusFitsUInt32 f = true ∧
      statusHasZeroSuccess f = true ∧ statusOnlySuccessIsZero f = true := by
  intro f
  cases f <;> exact ⟨by decide, by decide, by decide⟩

/-- C3 counterexample: the claim states the closed vocabulary of named
violation kinds has exactly 31 entries; the Errors enumeration declares
33. -/
theorem C3_counterexample_error_vocabulary_not_31 :
    allErrors.length = 33 ∧ allErrors.length ≠ 31 := by
  refine ⟨by decide, by decide⟩

/-- C3 amended: the SafetyViolationSet is drawn from a closed vocabulary of
exactly 33 named violation kinds (the list of enumerators is duplicate-free
and complete), and the classifier deduplicates raw fault flags into a set
that contains exactly the kinds that occurred. -/
theorem C3_error_vocabulary_closed_classifier_dedup :
    allErrors.Nodup ∧ allErrors.length = 33 ∧
    (∀ e : Errors, e ∈ allErrors) ∧
    ∀ raw : List Errors, (classify raw).Nodup ∧
      ∀ e : Errors, e ∈ classify raw ↔ e ∈ raw := by
  refine ⟨by decide, by decide, fun e => by cases e <;> decide, fun raw => ?_⟩
  exact ⟨List.nodup_dedup raw, fun e => List.mem_dedup⟩

/-- C4 counterexample: the claim states the GetCartesianLimit response
result payload is 160 bytes; the declared fields are 3 + 3 + 16 doubles and
one bool, which is 177 bytes unpadded and 184 bytes padded to the 8-byte
alignment of the doubles — not 160 either way. -/
theorem C4_counterexample_getCartesianLimit_not_160 :
    GetCartesianLimit.resultPayloadBytesRaw = 177 ∧
    GetCartesianLimit.resultPayloadBytesPadded = 184 ∧
    GetCartesianLimit.resultPayloadBytesRaw ≠ 160 ∧
    GetCartesianLimit.resultPayloadBytesPadded ≠ 160 := by
  refine ⟨by decide, by decide, by decide, by decide⟩

/-- C4 amended: the fixed request payload sizes are as claimed
(SetCollisionBehavior 416, SetJointImpedance 56, SetCartesianImpedance 48,
SetEEToK and SetFToEE 128, SetLoad 104), while the GetCartesianLimit
response result payload is 184 bytes (3 + 3 + 16 doubles plus 1 boolean,
padded to 8-byte alignment), not 160. -/
theorem C4_payload_sizes :
    requestPayloadBytes Function.kSetCollisionBehavior = 416 ∧
    requestPayloadBytes Function.kSetJointImpedance = 56 ∧
    requestPayloadBytes Function.kSetCartesianImpedance = 48 ∧
    requestPayloadBytes Function.kSetEEToK = 128 ∧
    requestPayloadBytes Function.kSetFToEE = 128 ∧
    requestPayloadBytes Function.kSetLoad = 104 ∧
    GetCartesianLimit.resultPayloadBytesPadded = 184 := by
  refine ⟨by decide, by decide, by decide, by decide, by decide, by decide,
    by decide⟩

/-- C5 counterexample: the claim states that for the controller axis the
rejected start yields kRejected as a value expressible in that command
Status enumeration; StartController inherits the default Status, which
contains only kSuccess, so no kRejected variant exists there. -/
theorem C5_counterexample_startController_has_no_kRejected :
    ((statusVariants Function.kStartController).all
      fun p => p.1 != "kRejected") = true ∧
    statusVariants Function.kStartController = [("kSuccess", 0)] := by
  refine ⟨by decide, by decide⟩

/-- C5 amended: on both the controller axis and the motion-generator axis,
a start issued while that axis is already Starting or Active is rejected
and the session — in particular the active mode on that axis — is
unchanged; the rejection is expressible as kRejected (value 4) in the
StartMotionGenerator Status enumeration, but the StartController Status
enumeration contains only kSuccess, so kRejected is not expressible
there. -/
theorem C5_start_on_busy_axis_rejected (s : SessionState) (m : Nat) :
    (s.controller ≠ Axis.idle →
      startController s m = (s, StartOutcome.kRejected)) ∧
    (s.motionGenerator ≠ Axis.idle →
      startMotionGenerator s m = (s, StartOutcome.kRejected)) ∧
    ("kRejected", 4) ∈ statusVariants Function.kStartMotionGenerator ∧
    ("kRejected", 4) ∉ statusVariants Function.kStartController := by
  refine ⟨fun hc => ?_, fun hm => ?_, by decide, by decide⟩
  · simp [startController, startAxis_busy s.controller m hc]
  · simp [startMotionGenerator, startAxis_busy s.motionGenerator m hm]

/-- C5 witness: with the controller Active in mode 0 and the motion
generator Idle, a second controller start is rejected and the session is
unchanged; symmetrically, with the controller Idle and the motion generator
Starting in mode 1, a motion-generator start is rejected and the session is
unchanged. -/
theorem C5_start_on_busy_axis_rejected_witness :
    startController ⟨Axis.active 0, Axis.idle, false, []⟩ 2 =
      (⟨Axis.active 0, Axis.idle, false, []⟩, StartOutcome.kRejected) ∧
    startMotionGenerator ⟨Axis.idle, Axis.starting 1, false, []⟩ 2 =
      (⟨Axis.idle, Axis.starting 1, false, []⟩, StartOutcome.kRejected) ∧
    ("kRejected", 4) ∈ statusVariants Function.kStartMotionGenerator ∧
    ("kRejected", 4) ∉ statusVariants Function.kStartController :=
  ⟨(C5_start_on_busy_axis_rejected
      ⟨Axis.active 0, Axis.idle, false, []⟩ 2).1 (by decide),
   (C5_start_on_busy_axis_rejected
      ⟨Axis.idle, Axis.starting 1, false, []⟩ 2).2.1 (by decide),
   (C5_start_on_busy_axis_rejected
      ⟨Axis.idle, Axis.starting 1, false, []⟩ 2).2.2.1,
   (C5_start_on_busy_axis_rejected
      ⟨Axis.idle, Axis.starting 1, false, []⟩ 2).2.2.2⟩

/-- C6: version negotiation accepts exactly when the client version equals
the server version; with mismatched versions the Connect outcome is
kIncompatibleLibraryVersion and no SessionState is created. -/
theorem C6_version_mismatch_rejects (c s : Nat) :
    (negotiate c s = Connect.Status.kSuccess ↔ c = s) ∧
    (c ≠ s → negotiate c s = Connect.Status.kIncompatibleLibraryVersion ∧
      connect c s = none) := by
  by_cases h : c = s
  · subst h
    exact ⟨by simp [negotiate], fun hc => absurd rfl hc⟩
  · refine ⟨?_, fun _ => ⟨by simp [negotiate, h], by simp [connect, h]⟩⟩
    simp only [negotiate, if_neg h]
    exact ⟨fun hk => absurd hk (by decide), fun hk => absurd hk h⟩

/-- C6 witness: negotiating client version 1 against server version 2 is
rejected as kIncompatibleLibraryVersion and creates no session. -/
theorem C6_version_mismatch_rejects_witness :
    negotiate 1 2 = Connect.Status.kIncompatibleLibraryVersion ∧
    connect 1 2 = none :=
  (C6_version_mismatch_rejects 1 2).2 (by decide)

/-- C7: Function is a closed enumeration of exactly 17 operations — the
enumerator list is duplicate-free, complete, has length 17, and the encoded
values of the 17 enumerators are pairwise distinct. -/
theorem C7_function_closed_17_distinct :
    allFunctions.length = 17 ∧ allFunctions.Nodup ∧
    (∀ f : Function, f ∈ allFunctions) ∧
    (allFunctions.map Function.val).Nodup := by
  refine ⟨by decide, by decide, fun f => by cases f <;> decide, by decide⟩

/-- C8: for every FunctionId, decoding the encoding of any well-formed
request message and any well-formed response message of that command
recovers the message exactly (codec round-trip law). -/
theorem C8_codec_roundtrip (f : Function) (req res : List Nat)
    (hreq : wellFormedMsg (requestSchema f) req = true)
    (hres : wellFormedMsg (responseSchema f) res = true) :
    decodeMsg (requestSchema f) (encodeMsg (requestSchema f) req) =
      some req ∧
    decodeMsg (responseSchema f) (encodeMsg (responseSchema f) res) =
      some res :=
  ⟨decodeMsg_encodeMsg _ _ hreq, decodeMsg_encodeMsg _ _ hres⟩

/-- C8 witness: the round trip at the Connect command, on the request with
function tag 0, version 1, udp port 1337 and the response with function
tag 0, status 0, version 1. -/
theorem C8_codec_roundtrip_witness :
    decodeMsg (requestSchema Function.kConnect)
        (encodeMsg (requestSchema Function.kConnect) [0, 1, 1337]) =
      some [0, 1, 1337] ∧
    decodeMsg (responseSchema Function.kConnect)
        (encodeMsg (responseSchema Function.kConnect) [0, 0, 1]) =
      some [0, 0, 1] :=
  C8_codec_roundtrip Function.kConnect [0, 1, 1337] [0, 0, 1]
    (by decide) (by decide)

/-- C9: each of the 14 commands that does not declare its own Status
enumeration inherits the default CommandBase Status, which contains exactly
the single variant kSuccess = 0, so no failure, rejection or abort outcome
is representable in those responses. -/
theorem C9_inherited_status_only_success :
    noOwnStatusCommands.length = 14 ∧
    ∀ f ∈ noOwnStatusCommands, statusVariants f = [("kSuccess", 0)] := by
  refine ⟨by decide, by decide⟩

/-- C9 witness: StartController is one of those commands, and its Status
list is exactly the single pair (kSuccess, 0). -/
theorem C9_inherited_status_only_success_witness :
    statusVariants Function.kStartController = [("kSuccess", 0)] :=
  C9_inherited_status_only_success.2 Function.kStartController (by decide)

/-- C10: the version field of every constructible Connect request and
Connect response is the compile-time constant kVersion = 1 — the
constructors take no version argument and always store kVersion. -/
theorem C10_connect_version_hardwired
    (udp_port : Nat) (status : Connect.Status) :
    (Connect.makeRequest udp_port).version = 1 ∧
    (Connect.makeResponse status).version = 1 ∧ kVersion = 1 :=
  ⟨rfl, rfl, rfl⟩

end ResearchInterface
